import Mathlib

/-!
Shallow embedding of the EduNova backend's content-generation pipeline,
`src/lessons/services/openai_service.py`.

Modelling decisions:

* Python dicts parsed from JSON become association lists `List (String × PyVal)`
  over an inductive `PyVal` of Python/JSON values.
* The external OpenAI transport is abstracted as an oracle
  `Nat → AttemptOutcome`: attempt number `a` either raises in
  `client.chat.completions.create` (`transportError`) or yields a response
  with a `finish_reason` and an optional `message.content` string.
* `json.loads` is abstracted as a parameter
  `parse : String → Except String PyVal` (`.error` models a raised
  `JSONDecodeError`).
* The module-global `_client` singleton (`None` / an `OpenAI` instance /
  `False`) becomes the explicit state `ClientSlot`
  (`uninit` / `ready` / `failed`), threaded through
  `get_openai_client` and `generate_lesson_content`.
* `logger.warning` output of the soft paragraph check is made observable as
  the `List String` of warnings paired with a successful bundle; `time.sleep`
  backoff is a pure delay with no observable effect and is not modelled.
* `generate_lesson_content` additionally returns the number of network calls
  made (calls to `client.chat.completions.create`) and the final client slot.
* In the source, the length threshold is `int(min_words * 0.7)` with
  `min_words ∈ {400, 600, 800}`; for these values IEEE-754 double arithmetic
  yields exactly 280.0, 420.0 and 560.0, so the Nat expression
  `min_words * 7 / 10` is exact.
-/

namespace EduNova

/-- Python/JSON values as produced by `json.loads`. -/
inductive PyVal where
  | str (s : String)
  | pyInt (n : Int)
  | pyBool (b : Bool)
  | pyList (xs : List PyVal)
  | pyDict (entries : List (String × PyVal))
  | pyNone

/-- Python truthiness of an `Optional[str]`: `None` and `""` are falsy.
Models `if api_key:` at line 20 of `openai_service.py`. -/
def strTruthy : Option String → Bool
  | none => false
  | some s => s != ""

/-- The module-global `_client` of `openai_service.py`:
`uninit` is Python `None`, `ready` is a constructed `OpenAI` instance,
`failed` is Python `False`. -/
inductive ClientSlot where
  | uninit
  | ready
  | failed
deriving DecidableEq

/-- `get_openai_client` (lines 15-29): lazy initialization of the client from
the environment. `env_api_key` is `os.getenv("OPENAI_API_KEY")`;
`construct_ok` tells whether `OpenAI(api_key=api_key)` would succeed.
Returns the new `_client` slot and the function's return value
(`some ()` a usable client, `none` for Python `None`). -/
def get_openai_client (env_api_key : Option String) (construct_ok : Bool) :
    ClientSlot → ClientSlot × Option Unit
  | .uninit =>
    if strTruthy env_api_key then
      if construct_ok then (.ready, some ()) else (.failed, none)
    else
      (.failed, none)
  | .ready => (.ready, some ())
  | .failed => (.failed, none)

/-- The per-duration generation parameters chosen at lines 67-88. -/
structure Tier where
  paragraphs : String
  min_words : Nat
  max_tokens : Nat
  activities_count : String
  questions_count : String
  lesson_type : String
deriving DecidableEq

/-- The `duration_minutes <= 30` branch (lines 68-74). -/
def shortTier : Tier := ⟨"4-5", 400, 1600, "5-7", "6-10", "SHORT"⟩

/-- The `duration_minutes <= 60` branch (lines 75-81). -/
def mediumTier : Tier := ⟨"7-9", 600, 2600, "6-8", "8-12", "MEDIUM"⟩

/-- The `else` branch (lines 82-88). -/
def longTier : Tier := ⟨"12-16", 800, 4200, "8-10", "10-15", "LONG"⟩

/-- The tier selection `if duration_minutes <= 30 ... elif ... else`
(lines 67-88). -/
def tierOf (duration_minutes : Int) : Tier :=
  if duration_minutes ≤ 30 then shortTier
  else if duration_minutes ≤ 60 then mediumTier
  else longTier

/-- The `expected_keys` set of `_validate_result` (line 49), as a list. -/
def expected_keys : List String :=
  ["description", "content", "activities", "questions", "summary"]

/-- Equality of key sets: `set(ks) == set(ls)`. -/
def sameKeySet (ks ls : List String) : Bool :=
  ks.all (fun k => ls.contains k) && ls.all (fun k => ks.contains k)

/-- Dict lookup; the `pyNone` default is only reached on keys absent from the
dict (the validated code paths only look up keys proved present). -/
def lookupD (d : List (String × PyVal)) (k : String) : PyVal :=
  match d.lookup k with
  | some v => v
  | none => .pyNone

/-- `isinstance(v, str)`. -/
def isStr : PyVal → Bool
  | .str _ => true
  | _ => false

/-- `isinstance(v, list) and all(isinstance(x, str) for x in v)`
(lines 56, 58). -/
def isStrList : PyVal → Bool
  | .pyList xs => xs.all isStr
  | _ => false

/-- `_validate_result` (lines 48-59): `.error msg` models `raise ValueError(msg)`.
The checks run in source order: key set, then the five type checks. -/
def validate_result (result : List (String × PyVal)) : Except String Unit :=
  if sameKeySet (result.map Prod.fst) expected_keys = false then
    .error "Unexpected keys returned"
  else if isStr (lookupD result "description") = false then
    .error "description must be string"
  else if isStr (lookupD result "content") = false then
    .error "content must be string"
  else if isStr (lookupD result "summary") = false then
    .error "summary must be string"
  else if isStrList (lookupD result "activities") = false then
    .error "activities must be list[str]"
  else if isStrList (lookupD result "questions") = false then
    .error "questions must be list[str]"
  else
    .ok ()

/-- Python `str.strip()` on a character list: drop leading and trailing
whitespace. -/
def pyStripList (cs : List Char) : List Char :=
  ((cs.dropWhile Char.isWhitespace).reverse.dropWhile Char.isWhitespace).reverse

/-- Python `str.strip()`. -/
def pyStrip (s : String) : String :=
  ⟨pyStripList s.data⟩

/-- Helper for Python `str.split()` with no separator: accumulate the current
word (reversed) and split on runs of whitespace, discarding empty pieces. -/
def wordsAux : List Char → List Char → List (List Char)
  | [], acc => if acc.isEmpty then [] else [acc.reverse]
  | c :: rest, acc =>
    if c.isWhitespace then
      if acc.isEmpty then wordsAux rest [] else acc.reverse :: wordsAux rest []
    else
      wordsAux rest (c :: acc)

/-- Python `len(content_text.split())` (line 163). -/
def word_count (s : String) : Nat :=
  (wordsAux s.data []).length

/-- Python `str.split("\n\n")`: non-overlapping left-to-right split on the
two-newline separator, accumulating the current piece (reversed). -/
def paraSplit : List Char → List Char → List (List Char)
  | [], acc => [acc.reverse]
  | '\x0a' :: '\x0a' :: rest, acc => acc.reverse :: paraSplit rest []
  | c :: rest, acc => paraSplit rest (c :: acc)

/-- Python `len([p for p in content_text.split("\n\n") if p.strip()])`
(line 170). -/
def paragraph_count (s : String) : Nat :=
  ((paraSplit s.data []).filter (fun p => pyStripList p ≠ [])).length

/-- `result.get("content", "")` (line 162): after `_validate_result`
succeeds the value is always a string; the `""` fallback mirrors the
`.get` default. -/
def asString : PyVal → String
  | .str s => s
  | _ => ""

/-- The soft paragraph-structure check (lines 169-174): a warning is logged
when fewer than 3 non-blank paragraphs are present, and nothing else
happens. -/
def softWarnings (content_text : String) : List String :=
  if paragraph_count content_text < 3 then
    ["Content appears to have only " ++ toString (paragraph_count content_text)
      ++ " paragraph(s)."]
  else
    []

/-- The dict literal returned on success (lines 176-182). -/
def mkBundle (result : List (String × PyVal)) : List (String × PyVal) :=
  [("description", lookupD result "description"),
   ("content", lookupD result "content"),
   ("activities", lookupD result "activities"),
   ("questions", lookupD result "questions"),
   ("summary", lookupD result "summary")]

/-- One interaction with the provider: either
`client.chat.completions.create` raises (any transport error), or it returns
a response carrying `choices[0].finish_reason` and
`choices[0].message.content`. -/
inductive AttemptOutcome where
  | transportError (msg : String)
  | response (finish_reason : Option String) (message_content : Option String)

/-- The body of one `try:` block of the retry loop after the `create` call
(lines 147-182), given the outcome of that call. `.error msg` models a raised
exception with message `msg`; `.ok (bundle, warnings)` models the returned
dict together with the warnings logged by the soft paragraph check. -/
def processAttempt (parse : String → Except String PyVal) (min_words : Nat)
    (o : AttemptOutcome) : Except String (List (String × PyVal) × List String) :=
  match o with
  | .transportError msg => .error msg
  | .response finish_reason message_content =>
    let raw := pyStrip (message_content.getD "")
    if finish_reason = some "length" then
      .error "Model output truncated (finish_reason=length)."
    else if raw = "" then
      .error "Empty response content from model."
    else
      match parse raw with
      | .error e => .error e
      | .ok (.pyDict result) =>
        match validate_result result with
        | .error e => .error e
        | .ok _ =>
          let content_text := asString (lookupD result "content")
          if word_count content_text < min_words * 7 / 10 then
            .error ("Content too short: " ++ toString (word_count content_text)
              ++ " words.")
          else
            .ok (mkBundle result, softWarnings content_text)
      | .ok _ =>
        .error "AttributeError: result has no attribute keys"

/-- Terminal failures of `generate_lesson_content`:
`configError` is the `ValueError` at line 65,
`exhaustedRetries` the wrapping `Exception` at line 189, carrying
`last_error` (`none` mirrors the initial `last_error = None`). -/
inductive GenError where
  | configError (msg : String)
  | exhaustedRetries (last : Option String)

/-- The `for attempt in range(1, 4)` retry loop (lines 120-189), over the
remaining attempt numbers. Also counts the `create` calls made. -/
def attemptLoop (parse : String → Except String PyVal) (min_words : Nat)
    (oracle : Nat → AttemptOutcome) :
    List Nat → Option String →
    Except GenError (List (String × PyVal) × List String) × Nat
  | [], last_error => (.error (.exhaustedRetries last_error), 0)
  | a :: rest, _last_error =>
    match processAttempt parse min_words (oracle a) with
    | .ok r => (.ok r, 1)
    | .error e =>
      match attemptLoop parse min_words oracle rest (some e) with
      | (res, n) => (res, n + 1)

/-- `generate_lesson_content` (lines 62-189). Inputs beyond the request's
`duration_minutes`: the environment credential, whether client construction
would succeed, the incoming `_client` slot, the `json.loads` oracle and the
provider oracle. (topic/subject/grade_level only feed the prompt text, which
the provider oracle abstracts.) Returns the outcome, the number of network
calls made, and the final `_client` slot. -/
def generate_lesson_content (env_api_key : Option String) (construct_ok : Bool)
    (slot : ClientSlot) (parse : String → Except String PyVal)
    (duration_minutes : Int) (oracle : Nat → AttemptOutcome) :
    Except GenError (List (String × PyVal) × List String) × Nat × ClientSlot :=
  match get_openai_client env_api_key construct_ok slot with
  | (slot2, none) =>
    (.error (.configError
      "OpenAI API key not configured. Please set OPENAI_API_KEY in your environment variables."),
     0, slot2)
  | (slot2, some _) =>
    match attemptLoop parse (tierOf duration_minutes).min_words oracle [1, 2, 3] none with
    | (res, n) => (res, n, slot2)

/-! Concrete fixtures used by the witness theorems below. -/

set_option maxRecDepth 10000 in
/-- A 280-word content string (the smallest word count accepted in the SHORT
tier). -/
def sampleContent : String :=
  ⟨(List.replicate 280 ['w', ' ']).flatten⟩

/-- A well-formed parsed response whose content has exactly 280 words. -/
def sampleGoodDict : List (String × PyVal) :=
  [("description", .str "overview"), ("content", .str sampleContent),
   ("activities", .pyList [.str "act one", .str "act two"]),
   ("questions", .pyList [.str "why?"]), ("summary", .str "five sentences")]

/-- A parsed response with an extra sixth key. -/
def sampleExtraKeyDict : List (String × PyVal) :=
  [("description", .str "d"), ("content", .str "c"),
   ("activities", .pyList []), ("questions", .pyList []),
   ("summary", .str "s"), ("extra", .str "x")]

/-- A parsed response with the right keys but a non-string content. -/
def sampleBadTypeDict : List (String × PyVal) :=
  [("description", .str "d"), ("content", .pyInt 7),
   ("activities", .pyList []), ("questions", .pyList []),
   ("summary", .str "s")]

/-- A parsed response with the right keys and types but a 3-word content. -/
def sampleShortDict : List (String × PyVal) :=
  [("description", .str "d"), ("content", .str "a b c"),
   ("activities", .pyList [.str "a"]), ("questions", .pyList [.str "q"]),
   ("summary", .str "s")]

/-! Helper lemmas. -/

theorem isStr_iff (v : PyVal) : isStr v = true ↔ ∃ s, v = .str s := by
  cases v <;> simp [isStr]

theorem isStrList_iff (v : PyVal) :
    isStrList v = true ↔ ∃ xs, v = .pyList xs ∧ xs.all isStr = true := by
  cases v <;> simp [isStrList]

theorem validate_result_ok_inv (result : List (String × PyVal))
    (h : validate_result result = .ok ()) :
    sameKeySet (result.map Prod.fst) expected_keys = true ∧
    isStr (lookupD result "description") = true ∧
    isStr (lookupD result "content") = true ∧
    isStr (lookupD result "summary") = true ∧
    isStrList (lookupD result "activities") = true ∧
    isStrList (lookupD result "questions") = true := by
  unfold validate_result at h
  repeat' split at h
  all_goals simp_all

theorem processAttempt_ok_inv (parse : String → Except String PyVal)
    (mw : Nat) (o : AttemptOutcome) (b : List (String × PyVal))
    (w : List String) (h : processAttempt parse mw o = .ok (b, w)) :
    ∃ result, validate_result result = .ok () ∧
      mw * 7 / 10 ≤ word_count (asString (lookupD result "content")) ∧
      b = mkBundle result ∧
      w = softWarnings (asString (lookupD result "content")) := by
  cases o with
  | transportError msg => exact absurd h (by simp [processAttempt])
  | response fr mc =>
    by_cases hfr : fr = some "length"
    · rw [hfr] at h; simp [processAttempt] at h
    · by_cases hraw : pyStrip (mc.getD "") = ""
      · simp [processAttempt, hfr, hraw] at h
      · cases hp : parse (pyStrip (mc.getD "")) with
        | error e => simp [processAttempt, hfr, hraw, hp] at h
        | ok v =>
          cases v with
          | str s => simp [processAttempt, hfr, hraw, hp] at h
          | pyInt n => simp [processAttempt, hfr, hraw, hp] at h
          | pyBool bb => simp [processAttempt, hfr, hraw, hp] at h
          | pyList xs => simp [processAttempt, hfr, hraw, hp] at h
          | pyNone => simp [processAttempt, hfr, hraw, hp] at h
          | pyDict result =>
            cases hval : validate_result result with
            | error e => simp [processAttempt, hfr, hraw, hp, hval] at h
            | ok u =>
              cases u
              by_cases hwc :
                  word_count (asString (lookupD result "content")) < mw * 7 / 10
              · simp [processAttempt, hfr, hraw, hp, hval, hwc] at h
              · simp only [processAttempt, hfr, hraw, hp, hval, hwc, if_neg,
                  if_false, Except.ok.injEq, Prod.mk.injEq] at h
                exact ⟨result, hval, by omega, h.1.symm, h.2.symm⟩

theorem attemptLoop_ok_inv (parse : String → Except String PyVal) (mw : Nat)
    (oracle : Nat → AttemptOutcome) :
    ∀ (attempts : List Nat) (le : Option String)
      (r : List (String × PyVal) × List String) (n : Nat),
      attemptLoop parse mw oracle attempts le = (.ok r, n) →
      ∃ a, a ∈ attempts ∧ processAttempt parse mw (oracle a) = .ok r := by
  intro attempts
  induction attempts with
  | nil => intro le r n h; simp [attemptLoop] at h
  | cons a rest ih =>
    intro le r n h
    cases hp : processAttempt parse mw (oracle a) with
    | ok v =>
      simp only [attemptLoop, hp, Prod.mk.injEq, Except.ok.injEq] at h
      exact ⟨a, List.mem_cons_self a rest, by rw [hp, h.1]⟩
    | error e =>
      simp only [attemptLoop, hp] at h
      cases hr : attemptLoop parse mw oracle rest (some e) with
      | mk res n' =>
        rw [hr] at h
        simp only [Prod.mk.injEq] at h
        obtain ⟨a', ha', hpa'⟩ := ih (some e) r n' (by rw [hr, h.1])
        exact ⟨a', List.mem_cons_of_mem a ha', hpa'⟩

/-! The claims. -/

/-- Claim C1: every normal return of `generate_lesson_content` is a bundle
with exactly the five keys description, content, activities, questions and
summary, in which description, content and summary are strings, activities
and questions are lists of strings, and the content's whitespace-split word
count passes the tier's minimum-length check (at least 70% of the minimum
word count of the tier selected by the request's duration). Any other outcome
of a call is a raised failure, never a partial bundle. -/
theorem returned_bundle_wellformed
    (env_api_key : Option String) (construct_ok : Bool) (slot : ClientSlot)
    (parse : String → Except String PyVal) (duration_minutes : Int)
    (oracle : Nat → AttemptOutcome) (bundle : List (String × PyVal))
    (warnings : List String) (n : Nat) (slot2 : ClientSlot)
    (h : generate_lesson_content env_api_key construct_ok slot parse
      duration_minutes oracle = (.ok (bundle, warnings), n, slot2)) :
    ∃ desc c acts qs summ,
      bundle = [("description", .str desc), ("content", .str c),
        ("activities", .pyList acts), ("questions", .pyList qs),
        ("summary", .str summ)] ∧
      acts.all isStr = true ∧ qs.all isStr = true ∧
      (tierOf duration_minutes).min_words * 7 / 10 ≤ word_count c := by
  unfold generate_lesson_content at h
  cases hg : get_openai_client env_api_key construct_ok slot with
  | mk s2 cl =>
    rw [hg] at h
    cases cl with
    | none => simp at h
    | some u =>
      cases hl : attemptLoop parse (tierOf duration_minutes).min_words oracle
          [1, 2, 3] none with
      | mk res m =>
        simp only [hl, Prod.mk.injEq] at h
        obtain ⟨a, _, hpa⟩ := attemptLoop_ok_inv parse
          (tierOf duration_minutes).min_words oracle [1, 2, 3] none
          (bundle, warnings) m (by rw [hl, h.1])
        obtain ⟨result, hval, hwc, hb, _⟩ := processAttempt_ok_inv parse
          (tierOf duration_minutes).min_words (oracle a) bundle warnings hpa
        obtain ⟨_, hdesc, hcont, hsumm, hacts, hqs⟩ :=
          validate_result_ok_inv result hval
        obtain ⟨desc, hdesc⟩ := (isStr_iff _).mp hdesc
        obtain ⟨c, hcont⟩ := (isStr_iff _).mp hcont
        obtain ⟨summ, hsumm⟩ := (isStr_iff _).mp hsumm
        obtain ⟨acts, hacts, hacts_all⟩ := (isStrList_iff _).mp hacts
        obtain ⟨qs, hqs, hqs_all⟩ := (isStrList_iff _).mp hqs
        refine ⟨desc, c, acts, qs, summ, ?_, hacts_all, hqs_all, ?_⟩
        · rw [hb]
          unfold mkBundle
          rw [hdesc, hcont, hacts, hqs, hsumm]
        · rw [hcont] at hwc
          simpa [asString] using hwc

set_option maxRecDepth 100000 in
/-- Witness for C1: a configured client and a conformant first response give
a success, whose bundle the theorem then describes. -/
theorem returned_bundle_wellformed_witness :
    ∃ desc c acts qs summ,
      mkBundle sampleGoodDict = [("description", PyVal.str desc),
        ("content", PyVal.str c), ("activities", PyVal.pyList acts),
        ("questions", PyVal.pyList qs), ("summary", PyVal.str summ)] ∧
      acts.all isStr = true ∧ qs.all isStr = true ∧
      (tierOf 20).min_words * 7 / 10 ≤ word_count c :=
  returned_bundle_wellformed (some "key") true .uninit
    (fun _ => .ok (.pyDict sampleGoodDict)) 20
    (fun _ => .response (some "stop") (some "j")) (mkBundle sampleGoodDict)
    (softWarnings sampleContent) 1 .ready rfl

/-- Claim C2: the size tier is a pure function of durationMinutes alone:
durations ≤ 30 select SHORT (paragraphs 4-5, min words 400, activities 5-7,
questions 6-10), durations in 31..60 select MEDIUM (7-9, 600, 6-8, 8-12),
durations > 60 select LONG (12-16, 800, 8-10, 10-15); the boundary inputs
30, 31, 60, 61 select SHORT, MEDIUM, MEDIUM, LONG. -/
theorem tier_selection_by_duration :
    (∀ d : Int, d ≤ 30 → tierOf d = shortTier) ∧
    (∀ d : Int, 31 ≤ d → d ≤ 60 → tierOf d = mediumTier) ∧
    (∀ d : Int, 60 < d → tierOf d = longTier) ∧
    (shortTier.paragraphs = "4-5" ∧ shortTier.min_words = 400 ∧
      shortTier.activities_count = "5-7" ∧
      shortTier.questions_count = "6-10") ∧
    (mediumTier.paragraphs = "7-9" ∧ mediumTier.min_words = 600 ∧
      mediumTier.activities_count = "6-8" ∧
      mediumTier.questions_count = "8-12") ∧
    (longTier.paragraphs = "12-16" ∧ longTier.min_words = 800 ∧
      longTier.activities_count = "8-10" ∧
      longTier.questions_count = "10-15") ∧
    tierOf 30 = shortTier ∧ tierOf 31 = mediumTier ∧
    tierOf 60 = mediumTier ∧ tierOf 61 = longTier := by
  refine ⟨?_, ?_, ?_, ?_, ?_, ?_, ?_, ?_, ?_, ?_⟩
  · intro d hd; unfold tierOf; rw [if_pos hd]
  · intro d hd1 hd2; unfold tierOf; rw [if_neg (by omega), if_pos hd2]
  · intro d hd; unfold tierOf; rw [if_neg (by omega), if_neg (by omega)]
  all_goals decide

/-- Witness for C2 at the concrete durations 12, 45 and 90. -/
theorem tier_selection_by_duration_witness :
    tierOf 12 = shortTier ∧ tierOf 45 = mediumTier ∧ tierOf 90 = longTier :=
  ⟨tier_selection_by_duration.1 12 (by decide),
   tier_selection_by_duration.2.1 45 (by decide) (by decide),
   tier_selection_by_duration.2.2.1 90 (by decide)⟩

/-- Claim C3: when every attempt fails, exactly 3 attempts are made, each
per-attempt failure is caught inside the loop, and the single raised failure
wraps the error of the last (third) attempt; no further attempt happens. -/
theorem three_failed_attempts_exhaust
    (env_api_key : Option String) (construct_ok : Bool) (slot : ClientSlot)
    (parse : String → Except String PyVal) (duration_minutes : Int)
    (oracle : Nat → AttemptOutcome) (e1 e2 e3 : String)
    (hclient : (get_openai_client env_api_key construct_ok slot).2 = some ())
    (h1 : processAttempt parse (tierOf duration_minutes).min_words (oracle 1) =
      .error e1)
    (h2 : processAttempt parse (tierOf duration_minutes).min_words (oracle 2) =
      .error e2)
    (h3 : processAttempt parse (tierOf duration_minutes).min_words (oracle 3) =
      .error e3) :
    generate_lesson_content env_api_key construct_ok slot parse duration_minutes
      oracle =
      (.error (.exhaustedRetries (some e3)), 3,
        (get_openai_client env_api_key construct_ok slot).1) := by
  unfold generate_lesson_content
  cases hg : get_openai_client env_api_key construct_ok slot with
  | mk s2 cl =>
    rw [hg] at hclient
    simp only at hclient
    rw [hclient]
    simp only [attemptLoop, h1, h2, h3]

/-- Witness for C3: a configured client and three transport failures yield
the wrapped exhaustion failure after exactly 3 calls. -/
theorem three_failed_attempts_exhaust_witness :
    generate_lesson_content (some "key") true .uninit
      (fun _ => .error "bad json") 45 (fun _ => .transportError "boom") =
      (.error (.exhaustedRetries (some "boom")), 3,
        (get_openai_client (some "key") true .uninit).1) :=
  three_failed_attempts_exhaust (some "key") true .uninit
    (fun _ => .error "bad json") 45 (fun _ => .transportError "boom")
    "boom" "boom" "boom" rfl rfl rfl rfl

/-- Claim C4: any parsed response whose key set is not exactly the five
expected keys — extra key, missing key, or both — is rejected by
`_validate_result`, regardless of the values of the fields present. -/
theorem key_set_mismatch_rejected (result : List (String × PyVal))
    (h : sameKeySet (result.map Prod.fst) expected_keys = false) :
    validate_result result = .error "Unexpected keys returned" := by
  unfold validate_result
  rw [if_pos h]

/-- Witness for C4: an otherwise valid response with a sixth key. -/
theorem key_set_mismatch_rejected_witness :
    validate_result sampleExtraKeyDict = .error "Unexpected keys returned" :=
  key_set_mismatch_rejected sampleExtraKeyDict (by decide)

/-- Claim C5: a provider response whose finish reason signals length
truncation is rejected no matter what the response text is and no matter how
it would parse (the truncation check precedes parsing and validation). -/
theorem truncation_always_rejected (parse : String → Except String PyVal)
    (min_words : Nat) (message_content : Option String) :
    processAttempt parse min_words (.response (some "length") message_content) =
      .error "Model output truncated (finish_reason=length)." := by
  simp [processAttempt]

/-- Claim C6: a validated response's content is rejected as too short exactly
when its whitespace-split word count is strictly below 70% of the tier's
minimum word count (the threshold `min_words * 7 / 10`, for every minimum);
in particular, for the SHORT tier (min words 400) a content with fewer than
280 words is rejected and one with at least 280 words passes the
minimum-length check, and likewise at the MEDIUM and LONG thresholds
420 and 560. -/
theorem tier_min_length_check (parse : String → Except String PyVal)
    (fr : Option String) (raw : String) (result : List (String × PyVal))
    (c : String) (hfr : fr ≠ some "length") (hstrip : pyStrip raw = raw)
    (hne : raw ≠ "") (hp : parse raw = .ok (.pyDict result))
    (hv : validate_result result = .ok ())
    (hc : lookupD result "content" = .str c) :
    (∀ min_words : Nat, word_count c < min_words * 7 / 10 →
      processAttempt parse min_words (.response fr (some raw)) =
        .error ("Content too short: " ++ toString (word_count c) ++
          " words.")) ∧
    (∀ min_words : Nat, min_words * 7 / 10 ≤ word_count c →
      processAttempt parse min_words (.response fr (some raw)) =
        .ok (mkBundle result, softWarnings c)) ∧
    (word_count c < 280 →
      processAttempt parse 400 (.response fr (some raw)) =
        .error ("Content too short: " ++ toString (word_count c) ++
          " words.")) ∧
    (280 ≤ word_count c →
      processAttempt parse 400 (.response fr (some raw)) =
        .ok (mkBundle result, softWarnings c)) ∧
    (word_count c < 420 →
      processAttempt parse 600 (.response fr (some raw)) =
        .error ("Content too short: " ++ toString (word_count c) ++
          " words.")) ∧
    (420 ≤ word_count c →
      processAttempt parse 600 (.response fr (some raw)) =
        .ok (mkBundle result, softWarnings c)) ∧
    (word_count c < 560 →
      processAttempt parse 800 (.response fr (some raw)) =
        .error ("Content too short: " ++ toString (word_count c) ++
          " words.")) ∧
    (560 ≤ word_count c →
      processAttempt parse 800 (.response fr (some raw)) =
        .ok (mkBundle result, softWarnings c)) := by
  have hrej : ∀ min_words : Nat, word_count c < min_words * 7 / 10 →
      processAttempt parse min_words (.response fr (some raw)) =
        .error ("Content too short: " ++ toString (word_count c) ++
          " words.") := by
    intro min_words hlt
    simp [processAttempt, hfr, hstrip, hne, hp, hv, hc, asString, hlt]
  have hpass : ∀ min_words : Nat, min_words * 7 / 10 ≤ word_count c →
      processAttempt parse min_words (.response fr (some raw)) =
        .ok (mkBundle result, softWarnings c) := by
    intro min_words hge
    simp [processAttempt, hfr, hstrip, hne, hp, hv, hc, asString,
      Nat.not_lt.mpr hge]
  refine ⟨hrej, hpass, ?_, ?_, ?_, ?_, ?_, ?_⟩
  · intro h; exact hrej 400 (by omega)
  · intro h; exact hpass 400 (by omega)
  · intro h; exact hrej 600 (by omega)
  · intro h; exact hpass 600 (by omega)
  · intro h; exact hrej 800 (by omega)
  · intro h; exact hpass 800 (by omega)

/-- Witness for C6: a validated 3-word content is rejected as too short in
the SHORT tier. -/
theorem tier_min_length_check_witness :
    processAttempt (fun _ => Except.ok (PyVal.pyDict sampleShortDict)) 400
      (.response (some "stop") (some "j")) =
      .error ("Content too short: " ++ toString (word_count "a b c") ++
        " words.") :=
  (tier_min_length_check (fun _ => .ok (.pyDict sampleShortDict))
    (some "stop") "j" sampleShortDict "a b c" (by decide) (by decide)
    (by decide) rfl rfl rfl).2.2.1 (by decide)

/-- Claim C7: with the API credential absent from the environment and no
client previously constructed in the process, `generate_lesson_content`
raises the configuration failure immediately, makes zero network calls and
consumes no retry attempts, for every input. -/
theorem missing_credential_immediate_failure (construct_ok : Bool)
    (parse : String → Except String PyVal) (duration_minutes : Int)
    (oracle : Nat → AttemptOutcome) :
    generate_lesson_content none construct_ok .uninit parse duration_minutes
      oracle =
      (.error (.configError
        "OpenAI API key not configured. Please set OPENAI_API_KEY in your environment variables."),
       0, .failed) := rfl

/-- Claim C8: a response carrying the five expected keys in which
description, content or summary is not a string, or activities or questions
is not a list of strings, is rejected by `_validate_result`. -/
theorem type_mismatch_rejected (result : List (String × PyVal))
    (_hkeys : sameKeySet (result.map Prod.fst) expected_keys = true)
    (hbad : isStr (lookupD result "description") = false ∨
      isStr (lookupD result "content") = false ∨
      isStr (lookupD result "summary") = false ∨
      isStrList (lookupD result "activities") = false ∨
      isStrList (lookupD result "questions") = false) :
    ∃ e, validate_result result = .error e := by
  cases hval : validate_result result with
  | error e => exact ⟨e, rfl⟩
  | ok u =>
    cases u
    have hinv := validate_result_ok_inv result hval
    rcases hbad with h | h | h | h | h <;> simp [h] at hinv

/-- Witness for C8: the five keys with an integer content field. -/
theorem type_mismatch_rejected_witness :
    ∃ e, validate_result sampleBadTypeDict = .error e :=
  type_mismatch_rejected sampleBadTypeDict (by decide)
    (Or.inr (Or.inl (by decide)))

/-- Claim C9: a candidate that passes every hard check but whose content has
fewer than 3 blank-line-delimited non-empty paragraphs is still accepted: the
bundle is returned together with the logged warning, and the paragraph-count
check never produces an error or a retry. -/
theorem low_paragraph_count_soft (parse : String → Except String PyVal)
    (min_words : Nat) (fr : Option String) (raw : String)
    (result : List (String × PyVal)) (c : String)
    (hfr : fr ≠ some "length") (hstrip : pyStrip raw = raw) (hne : raw ≠ "")
    (hp : parse raw = .ok (.pyDict result))
    (hv : validate_result result = .ok ())
    (hc : lookupD result "content" = .str c)
    (hwc : min_words * 7 / 10 ≤ word_count c)
    (hpc : paragraph_count c < 3) :
    processAttempt parse min_words (.response fr (some raw)) =
      .ok (mkBundle result,
        ["Content appears to have only " ++ toString (paragraph_count c) ++
          " paragraph(s)."]) := by
  simp [processAttempt, hfr, hstrip, hne, hp, hv, hc, asString,
    Nat.not_lt.mpr hwc, softWarnings, hpc]

set_option maxRecDepth 100000 in
/-- Witness for C9: a 280-word single-paragraph content in the SHORT tier is
accepted with the warning. -/
theorem low_paragraph_count_soft_witness :
    processAttempt (fun _ => Except.ok (PyVal.pyDict sampleGoodDict)) 400
      (.response (some "stop") (some "j")) =
      .ok (mkBundle sampleGoodDict,
        ["Content appears to have only " ++
          toString (paragraph_count sampleContent) ++ " paragraph(s)."]) :=
  low_paragraph_count_soft (fun _ => .ok (.pyDict sampleGoodDict)) 400
    (some "stop") "j" sampleGoodDict sampleContent (by decide) (by decide)
    (by decide) rfl rfl rfl (by decide) (by decide)

/-- Claim C10: the tiering is total over all integer durations: every
durationMinutes ≤ 0 is not rejected but silently selects the SHORT tier
parameters, and `generate_lesson_content` behaves exactly as it does for any
duration ≤ 30. -/
theorem nonpositive_duration_uses_short_tier (d : Int) (hd : d ≤ 0) :
    tierOf d = shortTier ∧
    ∀ (env_api_key : Option String) (construct_ok : Bool) (slot : ClientSlot)
      (parse : String → Except String PyVal) (oracle : Nat → AttemptOutcome)
      (d' : Int), d' ≤ 30 →
      generate_lesson_content env_api_key construct_ok slot parse d oracle =
        generate_lesson_content env_api_key construct_ok slot parse d'
          oracle := by
  have h1 : tierOf d = shortTier := by unfold tierOf; rw [if_pos (by omega)]
  refine ⟨h1, ?_⟩
  intro env_api_key construct_ok slot parse oracle d' hd'
  have h2 : tierOf d' = shortTier := by unfold tierOf; rw [if_pos hd']
  unfold generate_lesson_content
  rw [h1, h2]

/-- Witness for C10 at duration -5, compared with duration 10. -/
theorem nonpositive_duration_uses_short_tier_witness :
    tierOf (-5) = shortTier ∧
    generate_lesson_content none true .uninit (fun _ => Except.error "e") (-5)
      (fun _ => .transportError "x") =
      generate_lesson_content none true .uninit (fun _ => Except.error "e") 10
        (fun _ => .transportError "x") :=
  ⟨(nonpositive_duration_uses_short_tier (-5) (by decide)).1,
   (nonpositive_duration_uses_short_tier (-5) (by decide)).2 none true .uninit
     (fun _ => Except.error "e") (fun _ => .transportError "x") 10 (by decide)⟩

end EduNova
